import Mathlib

/-!
Verification of the issue-dashboard pipeline (`src/Jira_app.py`).

The raw JSON values returned by the tracker API are modelled by the mutual
inductive `JVal` / `JArr` / `JObj`.  The Python dictionary and list
operations used by the source are modelled by `JVal.getItem` (`d[k]`),
`JVal.get` (`d.get(k, default)`), `JVal.index0` (`xs[0]`) and
`JVal.truthy`; each raises the corresponding Python exception, modelled by
`PyErr`, exactly where the Python operation would.

The row normalizer `fetch_issue_data`, the table builder `process_issues`,
the insight aggregation `display_insight` and the controller's KPI counts
from `main` are then translated line by line.
-/

mutual
inductive JVal where
  | null
  | str (s : String)
  | num (n : Int)
  | arr (elems : JArr)
  | obj (fields : JObj)
  deriving DecidableEq
inductive JArr where
  | nil
  | cons (hd : JVal) (tl : JArr)
  deriving DecidableEq
inductive JObj where
  | nil
  | cons (k : String) (v : JVal) (tl : JObj)
  deriving DecidableEq
end

/-- Build a JSON array from a Lean list. -/
def JArr.ofList : List JVal → JArr
  | [] => JArr.nil
  | x :: xs => JArr.cons x (JArr.ofList xs)

/-- Build a JSON object from a Lean association list. -/
def JObj.ofList : List (String × JVal) → JObj
  | [] => JObj.nil
  | (k, v) :: xs => JObj.cons k v (JObj.ofList xs)

/-- A JSON array literal. -/
def jList (l : List JVal) : JVal := JVal.arr (JArr.ofList l)

/-- A JSON object literal. -/
def jDict (l : List (String × JVal)) : JVal := JVal.obj (JObj.ofList l)

/-- First binding of a key in an object (Python dicts have unique keys). -/
def JObj.lookup : JObj → String → Option JVal
  | JObj.nil, _ => none
  | JObj.cons k v tl, key => if k == key then some v else JObj.lookup tl key

/-- Key lookup on a `JVal`: `some` only for objects that bind the key. -/
def JVal.lookup : JVal → String → Option JVal
  | JVal.obj o, key => JObj.lookup o key
  | _, _ => none

/-- The Python type name of a value, as it appears in exception messages. -/
def JVal.pyType : JVal → String
  | JVal.null => "NoneType"
  | JVal.str _ => "str"
  | JVal.num _ => "int"
  | JVal.arr _ => "list"
  | JVal.obj _ => "dict"

/-- Python truthiness of a JSON value. -/
def JVal.truthy : JVal → Bool
  | JVal.null => false
  | JVal.str s => !(s == "")
  | JVal.num n => !(n == 0)
  | JVal.arr JArr.nil => false
  | JVal.arr _ => true
  | JVal.obj JObj.nil => false
  | JVal.obj _ => true

/-- The Python exceptions the normalizer can raise, with the payload that
`str(e)` renders. -/
inductive PyErr where
  | keyError (k : String)
  | keyErrorNum (n : Nat)
  | attrErrorGet (ty : String)
  | notSubscriptable (ty : String)
  | strIndicesMustBeInt
  | listIndicesMustBeInt
  | listIndexOutOfRange
  | strIndexOutOfRange
  deriving DecidableEq

/-- Python's `str(e)` for each modelled exception. -/
def PyErr.message : PyErr → String
  | PyErr.keyError k => "'" ++ k ++ "'"
  | PyErr.keyErrorNum n => toString n
  | PyErr.attrErrorGet ty => "'" ++ ty ++ "' object has no attribute 'get'"
  | PyErr.notSubscriptable ty => "'" ++ ty ++ "' object is not subscriptable"
  | PyErr.strIndicesMustBeInt => "string indices must be integers"
  | PyErr.listIndicesMustBeInt => "list indices must be integers or slices, not str"
  | PyErr.listIndexOutOfRange => "list index out of range"
  | PyErr.strIndexOutOfRange => "string index out of range"

instance {ε α : Type} [DecidableEq ε] [DecidableEq α] : DecidableEq (Except ε α)
  | Except.error e, Except.error f =>
    if h : e = f then isTrue (by rw [h]) else isFalse (fun hc => h (Except.error.inj hc))
  | Except.error _, Except.ok _ => isFalse (fun hc => Except.noConfusion hc)
  | Except.ok _, Except.error _ => isFalse (fun hc => Except.noConfusion hc)
  | Except.ok a, Except.ok b =>
    if h : a = b then isTrue (by rw [h]) else isFalse (fun hc => h (Except.ok.inj hc))

/-- Python `v[k]` with a string key: succeeds only on a dict binding `k`. -/
def JVal.getItem : JVal → String → Except PyErr JVal
  | JVal.obj o, k =>
    match JObj.lookup o k with
    | some v => Except.ok v
    | none => Except.error (PyErr.keyError k)
  | JVal.str _, _ => Except.error PyErr.strIndicesMustBeInt
  | JVal.arr _, _ => Except.error PyErr.listIndicesMustBeInt
  | v, _ => Except.error (PyErr.notSubscriptable v.pyType)

/-- Python `v.get(k, default)`: only dicts have a `get` attribute. -/
def JVal.get (v : JVal) (k : String) (d : JVal) : Except PyErr JVal :=
  match v with
  | JVal.obj o => Except.ok ((JObj.lookup o k).getD d)
  | _ => Except.error (PyErr.attrErrorGet v.pyType)

/-- Python `v[0]`: first element of a list (a dict with string keys never
binds the integer key `0`, so indexing a dict raises `KeyError: 0`). -/
def JVal.index0 : JVal → Except PyErr JVal
  | JVal.arr (JArr.cons x _) => Except.ok x
  | JVal.arr JArr.nil => Except.error PyErr.listIndexOutOfRange
  | JVal.str s => if s == "" then Except.error PyErr.strIndexOutOfRange else Except.ok (JVal.str (s.take 1))
  | JVal.obj _ => Except.error (PyErr.keyErrorNum 0)
  | v => Except.error (PyErr.notSubscriptable v.pyType)

/-- One normalized row.  The `Jira_app.py` row dictionary has keys
`JIRA Key`, `Summary`, `Type`, `Status`, `Fix Version`, `Project`,
`CAT Scope`, `IT Portal / SR / CR`, `Comments`; a field is `none` when the
returned dictionary does not bind the corresponding key (the degraded row
of the exception handler binds only `JIRA Key` and `Comments`). -/
structure Row where
  jiraKey : JVal
  summary : Option JVal
  type : Option JVal
  status : Option JVal
  fixVersion : Option JVal
  project : Option JVal
  catScope : Option JVal
  itPortal : Option JVal
  comments : String
  deriving DecidableEq

/-- Line 42: `issue['fields'].get('customfield_10079', {}).get('value', "Not updated")`. -/
def extractCatScope (issue : JVal) : Except PyErr JVal := do
  let f ← issue.getItem "fields"
  let c ← f.get "customfield_10079" (jDict [])
  c.get "value" (JVal.str "Not updated")

/-- Line 43: `issue.get('key', "Unknown")`. -/
def extractKey (issue : JVal) : Except PyErr JVal :=
  issue.get "key" (JVal.str "Unknown")

/-- Line 44: `issue['fields'].get('summary', "Not updated")`. -/
def extractSummary (issue : JVal) : Except PyErr JVal := do
  let f ← issue.getItem "fields"
  f.get "summary" (JVal.str "Not updated")

/-- Line 45: `issue['fields'].get('issuetype', {}).get('name', "Not updated")`. -/
def extractType (issue : JVal) : Except PyErr JVal := do
  let f ← issue.getItem "fields"
  let t ← f.get "issuetype" (jDict [])
  t.get "name" (JVal.str "Not updated")

/-- Line 46: `issue['fields'].get('status', {}).get('name', "Not updated")`. -/
def extractStatus (issue : JVal) : Except PyErr JVal := do
  let f ← issue.getItem "fields"
  let s ← f.get "status" (jDict [])
  s.get "name" (JVal.str "Not updated")

/-- Line 47: `issue['fields'].get('fixVersions', [])[0]['name'] if
issue['fields'].get('fixVersions') else "Not updated"` (the condition is
evaluated first; `.get` with one argument defaults to `None`). -/
def extractFixVersion (issue : JVal) : Except PyErr JVal := do
  let f ← issue.getItem "fields"
  let cond ← f.get "fixVersions" JVal.null
  if cond.truthy then do
    let f2 ← issue.getItem "fields"
    let fvs ← f2.get "fixVersions" (jList [])
    let first ← fvs.index0
    first.getItem "name"
  else
    Except.ok (JVal.str "Not updated")

/-- Line 48: `issue['fields']['project']['key']` (no fallback). -/
def extractProject (issue : JVal) : Except PyErr JVal := do
  let f ← issue.getItem "fields"
  let p ← f.getItem "project"
  p.getItem "key"

/-- Line 49: `issue['fields'].get('customfield_10065', "Not updated")`. -/
def extractItPortal (issue : JVal) : Except PyErr JVal := do
  let f ← issue.getItem "fields"
  f.get "customfield_10065" (JVal.str "Not updated")

/-- Lines 51-65: the `comments` accumulation, one conditional append per
checked field, in the source's fixed order. -/
def mkComments (jira_key summary issue_type status fix_version project it_portal : JVal) : String :=
  let comments := ""
  let comments := if jira_key == JVal.str "Unknown" then comments ++ "Error: JIRA Key is missing. " else comments
  let comments := if summary == JVal.str "Not updated" then comments ++ "Error: Summary is missing. " else comments
  let comments := if issue_type == JVal.str "Not updated" then comments ++ "Error: Issue Type is missing. " else comments
  let comments := if status == JVal.str "Not updated" then comments ++ "Error: Status is missing. " else comments
  let comments := if fix_version == JVal.str "Not updated" then comments ++ "Error: Fix Version is missing. " else comments
  let comments := if project == JVal.str "Not updated" then comments ++ "Error: Project is missing. " else comments
  let comments := if it_portal == JVal.str "Not updated" then comments ++ "Error: IT Portal / SR / CR is missing. " else comments
  comments

/-- Lines 41-77 of `fetch_issue_data`: the `try` block.  The extraction
statements run in source order, so the first raising line determines the
exception. -/
def extractIssue (issue : JVal) : Except PyErr Row := do
  let cat_scope ← extractCatScope issue
  let jira_key ← extractKey issue
  let summary ← extractSummary issue
  let issue_type ← extractType issue
  let status ← extractStatus issue
  let fix_version ← extractFixVersion issue
  let project ← extractProject issue
  let it_portal_sr_cr ← extractItPortal issue
  let comments := mkComments jira_key summary issue_type status fix_version project it_portal_sr_cr
  Except.ok
    { jiraKey := jira_key
      summary := some summary
      type := some issue_type
      status := some status
      fixVersion := some fix_version
      project := some project
      catScope := some cat_scope
      itPortal := some it_portal_sr_cr
      comments := if comments == "" then comments else comments }

/-- Lines 82-85: the degraded row of the `except` handler.  The handler's
`hasattr(e, 'response')` branch is never taken, because the dictionary and
list exceptions raised inside the `try` block carry no `response`
attribute, so `error_message` is always `str(e)`. -/
def degradedRow (msg : String) : Row :=
  { jiraKey := JVal.str "Unknown"
    summary := none
    type := none
    status := none
    fixVersion := none
    project := none
    catScope := none
    itPortal := none
    comments := "Error in 'fetch_issue_data': " ++ msg }

/-- Lines 40-85: `fetch_issue_data`, the row normalizer. -/
def fetch_issue_data (issue : JVal) : Row :=
  match extractIssue issue with
  | Except.ok row => row
  | Except.error e => degradedRow e.message

/-- Line 91: the JQL query string built for one (project, version) pair. -/
def jql_query (project_key fix_version : String) : String :=
  "project = " ++ project_key ++ " AND fixVersion = \"" ++ fix_version ++ "\""

/-- Lines 87-94: `process_issues`.  `get_issues` stands for the search call
(a network request); the nested loops extend the accumulator with the
normalized rows of each search. -/
def process_issues (get_issues : String → List JVal) (selected_fix_versions selected_project_keys : List String) : List Row :=
  selected_project_keys.foldl
    (fun data selected_project_key =>
      selected_fix_versions.foldl
        (fun data selected_fix_version =>
          data ++ (get_issues (jql_query selected_project_key selected_fix_version)).map fetch_issue_data)
        data)
    []

/-- The sequence of JQL queries `process_issues` passes to `get_issues`,
read off the same loop structure (one call per loop-body iteration). -/
def process_issues_calls (selected_fix_versions selected_project_keys : List String) : List String :=
  selected_project_keys.foldl
    (fun calls selected_project_key =>
      selected_fix_versions.foldl
        (fun calls selected_fix_version =>
          calls ++ [jql_query selected_project_key selected_fix_version])
        calls)
    []

/-- Line 194: `df.shape[0]`, the KPI "Total issue count". -/
def totalIssueCount (df : List Row) : Nat := df.length

/-- Line 196: `'Type' in df.columns` — a DataFrame built from a list of
dictionaries has a `Type` column exactly when some row binds that key. -/
def hasTypeColumn (df : List Row) : Bool := df.any (fun r => r.type.isSome)

/-- Lines 197-199: `df[df['Type'] == t].shape[0]` — rows whose `Type` cell
equals the string `t` (a missing cell is NaN and never equal). -/
def countType (df : List Row) (t : String) : Nat :=
  (df.filter (fun r => r.type == some (JVal.str t))).length

/-- Lines 196-203: the per-type KPI — the count when the `Type` column
exists, `none` where the controller shows "No data available" instead. -/
def kpiTypeCount (df : List Row) (t : String) : Option Nat :=
  if hasTypeColumn df then some (countType df t) else none

/-- A string contains an exact sentence. -/
def strContains (s sentence : String) : Prop :=
  ∃ p q : String, s = p ++ (sentence ++ q)

/-- The seven error markers of lines 52-65, concatenated in the source's
fixed check order, each one present or absent. -/
def markerCat (b1 b2 b3 b4 b5 b6 b7 : Bool) : String :=
  (if b1 then "Error: JIRA Key is missing. " else "") ++
  ((if b2 then "Error: Summary is missing. " else "") ++
  ((if b3 then "Error: Issue Type is missing. " else "") ++
  ((if b4 then "Error: Status is missing. " else "") ++
  ((if b5 then "Error: Fix Version is missing. " else "") ++
  ((if b6 then "Error: Project is missing. " else "") ++
  (if b7 then "Error: IT Portal / SR / CR is missing. " else ""))))))

/-- Fields of a fully populated raw issue; the fix-versions list has two
entries and the first is named "1.0". -/
def sampleFields : JObj := JObj.ofList
  [("summary", JVal.str "Fix login"),
   ("issuetype", jDict [("name", JVal.str "Story")]),
   ("status", jDict [("name", JVal.str "Done")]),
   ("fixVersions", jList [jDict [("name", JVal.str "1.0")], jDict [("name", JVal.str "2.0")]]),
   ("project", jDict [("key", JVal.str "OPS")]),
   ("customfield_10079", jDict [("value", JVal.str "In scope")]),
   ("customfield_10065", JVal.str "SR-123")]

/-- A fully populated raw issue. -/
def sampleIssue : JVal := jDict [("key", JVal.str "OPS-1"), ("fields", JVal.obj sampleFields)]

/-- Fields binding only `project`: `summary`, `issuetype`, `status`,
`fixVersions` and `customfield_10065` are all absent. -/
def bareFields : JObj := JObj.ofList [("project", jDict [("key", JVal.str "OPS")])]

/-- A raw issue (also without `key`) whose checked fields are all absent. -/
def bareIssue : JVal := jDict [("fields", JVal.obj bareFields)]

/-- A raw issue whose `fields` object has no `project` key at all. -/
def noProjectIssue : JVal := jDict [("key", JVal.str "OPS-1"), ("fields", jDict
  [("summary", JVal.str "Fix login"),
   ("issuetype", jDict [("name", JVal.str "Story")]),
   ("status", jDict [("name", JVal.str "Done")]),
   ("fixVersions", jList [jDict [("name", JVal.str "1.0")]]),
   ("customfield_10079", jDict [("value", JVal.str "In scope")]),
   ("customfield_10065", JVal.str "SR-123")])]

/-- A raw issue with a malformed (null) project object. -/
def nullProjectIssue : JVal := jDict [("key", JVal.str "OPS-1"), ("fields", jDict
  [("summary", JVal.str "Fix login"),
   ("issuetype", jDict [("name", JVal.str "Story")]),
   ("status", jDict [("name", JVal.str "Done")]),
   ("fixVersions", jList [jDict [("name", JVal.str "1.0")]]),
   ("project", JVal.null),
   ("customfield_10079", jDict [("value", JVal.str "In scope")]),
   ("customfield_10065", JVal.str "SR-123")])]

/-- The C4 scenario issue: `issuetype` absent, status "Done", everything
else present. -/
def opsIssue : JVal := jDict [("key", JVal.str "OPS-7"), ("fields", jDict
  [("summary", JVal.str "Fix login"),
   ("status", jDict [("name", JVal.str "Done")]),
   ("fixVersions", jList [jDict [("name", JVal.str "1.0")]]),
   ("project", jDict [("key", JVal.str "OPS")]),
   ("customfield_10079", jDict [("value", JVal.str "In scope")]),
   ("customfield_10065", JVal.str "SR-123")])]

/-- A search stub returning the single C4 scenario issue. -/
def opsSearch : String → List JVal := fun _ => [opsIssue]

/-- The table the controller builds in the C4 scenario (one selected
project "OPS", one selected version "1.0"). -/
def opsDf : List Row := process_issues opsSearch ["1.0"] ["OPS"]

/-- Fields whose `summary` is present but its value is the literal string
"Not updated"; every other field is present with a genuine value. -/
def sentinelSummaryFields : JObj := JObj.ofList
  [("summary", JVal.str "Not updated"),
   ("issuetype", jDict [("name", JVal.str "Story")]),
   ("status", jDict [("name", JVal.str "Done")]),
   ("fixVersions", jList [jDict [("name", JVal.str "1.0")]]),
   ("project", jDict [("key", JVal.str "OPS")]),
   ("customfield_10079", jDict [("value", JVal.str "In scope")]),
   ("customfield_10065", JVal.str "SR-123")]

/-- The raw issue around `sentinelSummaryFields`. -/
def sentinelSummaryIssue : JVal := jDict [("key", JVal.str "OPS-2"), ("fields", JVal.obj sentinelSummaryFields)]

/-- Fields with `customfield_10079` absent and a status whose name is the
literal string "Not updated"; all checked fields are present. -/
def sentinelStatusFields : JObj := JObj.ofList
  [("summary", JVal.str "Fix login"),
   ("issuetype", jDict [("name", JVal.str "Story")]),
   ("status", jDict [("name", JVal.str "Not updated")]),
   ("fixVersions", jList [jDict [("name", JVal.str "1.0")]]),
   ("project", jDict [("key", JVal.str "OPS")]),
   ("customfield_10065", JVal.str "SR-123")]

/-- The raw issue around `sentinelStatusFields`. -/
def sentinelStatusIssue : JVal := jDict [("key", JVal.str "OPS-3"), ("fields", JVal.obj sentinelStatusFields)]

/-- Fields with `customfield_10079` absent and every checked field present
with a genuine value. -/
def noCatFields : JObj := JObj.ofList
  [("summary", JVal.str "Fix login"),
   ("issuetype", jDict [("name", JVal.str "Story")]),
   ("status", jDict [("name", JVal.str "Done")]),
   ("fixVersions", jList [jDict [("name", JVal.str "1.0")]]),
   ("project", jDict [("key", JVal.str "OPS")]),
   ("customfield_10065", JVal.str "SR-123")]

/-- The raw issue around `noCatFields`. -/
def noCatIssue : JVal := jDict [("key", JVal.str "OPS-4"), ("fields", JVal.obj noCatFields)]

/-- Fields whose `customfield_10079` is present as an empty object (no
nested `value` key). -/
def emptyCatFields : JObj := JObj.ofList
  [("summary", JVal.str "Fix login"),
   ("issuetype", jDict [("name", JVal.str "Story")]),
   ("status", jDict [("name", JVal.str "Done")]),
   ("fixVersions", jList [jDict [("name", JVal.str "1.0")]]),
   ("project", jDict [("key", JVal.str "OPS")]),
   ("customfield_10079", jDict []),
   ("customfield_10065", JVal.str "SR-123")]

/-- The raw issue around `emptyCatFields`. -/
def emptyCatIssue : JVal := jDict [("key", JVal.str "OPS-5"), ("fields", JVal.obj emptyCatFields)]

/-- Fields whose `customfield_10079` is present but null. -/
def nullCatFields : JObj := JObj.ofList
  [("summary", JVal.str "Fix login"),
   ("issuetype", jDict [("name", JVal.str "Story")]),
   ("status", jDict [("name", JVal.str "Done")]),
   ("fixVersions", jList [jDict [("name", JVal.str "1.0")]]),
   ("project", jDict [("key", JVal.str "OPS")]),
   ("customfield_10079", JVal.null),
   ("customfield_10065", JVal.str "SR-123")]

/-- The raw issue around `nullCatFields`. -/
def nullCatIssue : JVal := jDict [("key", JVal.str "OPS-6"), ("fields", JVal.obj nullCatFields)]

theorem append_ite_right (c : String) (b : Bool) (m : String) :
    (if b then c ++ m else c) = c ++ (if b then m else "") := by
  cases b <;> simp

/-- The comment accumulation is the fixed-order concatenation of the seven
markers, gated by the sentinel comparisons of lines 52-64. -/
theorem mkComments_markerCat (jk sm ty st fv pj itp : JVal) :
    mkComments jk sm ty st fv pj itp =
      markerCat (jk == JVal.str "Unknown") (sm == JVal.str "Not updated")
        (ty == JVal.str "Not updated") (st == JVal.str "Not updated")
        (fv == JVal.str "Not updated") (pj == JVal.str "Not updated")
        (itp == JVal.str "Not updated") := by
  unfold mkComments markerCat
  cases jk == JVal.str "Unknown" <;> cases sm == JVal.str "Not updated" <;>
    cases ty == JVal.str "Not updated" <;> cases st == JVal.str "Not updated" <;>
    cases fv == JVal.str "Not updated" <;> cases pj == JVal.str "Not updated" <;>
    cases itp == JVal.str "Not updated" <;>
    simp [String.append_assoc, String.empty_append, String.append_empty]

theorem mkComments_empty {jk sm ty st fv pj itp : JVal}
    (h1 : jk ≠ JVal.str "Unknown") (h2 : sm ≠ JVal.str "Not updated")
    (h3 : ty ≠ JVal.str "Not updated") (h4 : st ≠ JVal.str "Not updated")
    (h5 : fv ≠ JVal.str "Not updated") (h6 : pj ≠ JVal.str "Not updated")
    (h7 : itp ≠ JVal.str "Not updated") :
    mkComments jk sm ty st fv pj itp = "" := by
  have e1 : (jk == JVal.str "Unknown") = false := beq_eq_false_iff_ne.mpr h1
  have e2 : (sm == JVal.str "Not updated") = false := beq_eq_false_iff_ne.mpr h2
  have e3 : (ty == JVal.str "Not updated") = false := beq_eq_false_iff_ne.mpr h3
  have e4 : (st == JVal.str "Not updated") = false := beq_eq_false_iff_ne.mpr h4
  have e5 : (fv == JVal.str "Not updated") = false := beq_eq_false_iff_ne.mpr h5
  have e6 : (pj == JVal.str "Not updated") = false := beq_eq_false_iff_ne.mpr h6
  have e7 : (itp == JVal.str "Not updated") = false := beq_eq_false_iff_ne.mpr h7
  simp [mkComments, e1, e2, e3, e4, e5, e6, e7]

theorem bind_ok_elim {α β : Type} {x : Except PyErr α} {f : α → Except PyErr β} {b : β}
    (h : x >>= f = Except.ok b) : ∃ a, x = Except.ok a ∧ f a = Except.ok b := by
  cases x with
  | error e => exact absurd h (by simp [Bind.bind, Except.bind])
  | ok a => exact ⟨a, rfl, by simpa [Bind.bind, Except.bind] using h⟩

/-- Unfolding a successful run of the `try` block: every per-line extractor
succeeded, and the returned row is assembled from their values. -/
theorem extractIssue_ok_elim {issue : JVal} {row : Row}
    (h : extractIssue issue = Except.ok row) :
    ∃ cat jk sm ty st fv pj itp,
      extractCatScope issue = Except.ok cat ∧
      extractKey issue = Except.ok jk ∧
      extractSummary issue = Except.ok sm ∧
      extractType issue = Except.ok ty ∧
      extractStatus issue = Except.ok st ∧
      extractFixVersion issue = Except.ok fv ∧
      extractProject issue = Except.ok pj ∧
      extractItPortal issue = Except.ok itp ∧
      row = { jiraKey := jk, summary := some sm, type := some ty, status := some st,
              fixVersion := some fv, project := some pj, catScope := some cat,
              itPortal := some itp, comments := mkComments jk sm ty st fv pj itp } := by
  unfold extractIssue at h
  obtain ⟨cat, hc, h⟩ := bind_ok_elim h
  obtain ⟨jk, hk, h⟩ := bind_ok_elim h
  obtain ⟨sm, hs, h⟩ := bind_ok_elim h
  obtain ⟨ty, ht, h⟩ := bind_ok_elim h
  obtain ⟨st, hst, h⟩ := bind_ok_elim h
  obtain ⟨fv, hfv, h⟩ := bind_ok_elim h
  obtain ⟨pj, hp, h⟩ := bind_ok_elim h
  obtain ⟨itp, hit, h⟩ := bind_ok_elim h
  refine ⟨cat, jk, sm, ty, st, fv, pj, itp, hc, hk, hs, ht, hst, hfv, hp, hit, ?_⟩
  injection h with h
  simp [← h, ite_self]

theorem ok_unique {α : Type} {x : Except PyErr α} {a b : α}
    (h1 : x = Except.ok a) (h2 : x = Except.ok b) : a = b := by
  rw [h1] at h2
  exact Except.ok.inj h2

theorem extractCatScope_of_fields {issue : JVal} {o : JObj}
    (hf : issue.getItem "fields" = Except.ok (JVal.obj o)) :
    extractCatScope issue =
      ((JObj.lookup o "customfield_10079").getD (jDict [])).get "value" (JVal.str "Not updated") := by
  unfold extractCatScope
  rw [hf]
  rfl

theorem extractSummary_of_fields {issue : JVal} {o : JObj}
    (hf : issue.getItem "fields" = Except.ok (JVal.obj o)) :
    extractSummary issue = Except.ok ((JObj.lookup o "summary").getD (JVal.str "Not updated")) := by
  unfold extractSummary
  rw [hf]
  rfl

theorem extractType_of_fields {issue : JVal} {o : JObj}
    (hf : issue.getItem "fields" = Except.ok (JVal.obj o)) :
    extractType issue =
      ((JObj.lookup o "issuetype").getD (jDict [])).get "name" (JVal.str "Not updated") := by
  unfold extractType
  rw [hf]
  rfl

theorem extractStatus_of_fields {issue : JVal} {o : JObj}
    (hf : issue.getItem "fields" = Except.ok (JVal.obj o)) :
    extractStatus issue =
      ((JObj.lookup o "status").getD (jDict [])).get "name" (JVal.str "Not updated") := by
  unfold extractStatus
  rw [hf]
  rfl

theorem extractItPortal_of_fields {issue : JVal} {o : JObj}
    (hf : issue.getItem "fields" = Except.ok (JVal.obj o)) :
    extractItPortal issue = Except.ok ((JObj.lookup o "customfield_10065").getD (JVal.str "Not updated")) := by
  unfold extractItPortal
  rw [hf]
  rfl

theorem extractFixVersion_of_fields_none {issue : JVal} {o : JObj}
    (hf : issue.getItem "fields" = Except.ok (JVal.obj o))
    (hl : JObj.lookup o "fixVersions" = none) :
    extractFixVersion issue = Except.ok (JVal.str "Not updated") := by
  unfold extractFixVersion
  rw [hf]
  simp [Bind.bind, Except.bind, JVal.get, hl, JVal.truthy]

theorem extractFixVersion_of_fields_empty {issue : JVal} {o : JObj}
    (hf : issue.getItem "fields" = Except.ok (JVal.obj o))
    (hl : JObj.lookup o "fixVersions" = some (JVal.arr JArr.nil)) :
    extractFixVersion issue = Except.ok (JVal.str "Not updated") := by
  unfold extractFixVersion
  rw [hf]
  simp [Bind.bind, Except.bind, JVal.get, hl, JVal.truthy]

theorem extractFixVersion_of_fields_cons {issue : JVal} {o : JObj} {e : JVal} {rest : JArr}
    (hf : issue.getItem "fields" = Except.ok (JVal.obj o))
    (hl : JObj.lookup o "fixVersions" = some (JVal.arr (JArr.cons e rest))) :
    extractFixVersion issue = e.getItem "name" := by
  unfold extractFixVersion
  rw [hf]
  simp [Bind.bind, Except.bind, JVal.get, hl, JVal.truthy, JVal.index0]

theorem foldl_append_flatMap {α β : Type} (f : α → List β) (l : List α) (init : List β) :
    l.foldl (fun acc x => acc ++ f x) init = init ++ l.flatMap f := by
  induction l generalizing init with
  | nil => simp
  | cons x xs ih => simp [List.foldl_cons, ih, List.flatMap_cons, List.append_assoc]

theorem foldl_const {α β : Type} (l : List α) (init : β) :
    l.foldl (fun acc _ => acc) init = init := by
  induction l with
  | nil => rfl
  | cons x xs ih =>
    rw [List.foldl_cons]
    exact ih

theorem markerCat_contains_summary (b1 b3 b4 b5 b6 b7 : Bool) :
    strContains (markerCat b1 true b3 b4 b5 b6 b7) "Error: Summary is missing. " := by
  refine ⟨if b1 then "Error: JIRA Key is missing. " else "",
    (if b3 then "Error: Issue Type is missing. " else "") ++
    ((if b4 then "Error: Status is missing. " else "") ++
    ((if b5 then "Error: Fix Version is missing. " else "") ++
    ((if b6 then "Error: Project is missing. " else "") ++
    (if b7 then "Error: IT Portal / SR / CR is missing. " else "")))), ?_⟩
  simp [markerCat, String.append_assoc]

theorem markerCat_contains_type (b1 b2 b4 b5 b6 b7 : Bool) :
    strContains (markerCat b1 b2 true b4 b5 b6 b7) "Error: Issue Type is missing. " := by
  refine ⟨(if b1 then "Error: JIRA Key is missing. " else "") ++
    (if b2 then "Error: Summary is missing. " else ""),
    (if b4 then "Error: Status is missing. " else "") ++
    ((if b5 then "Error: Fix Version is missing. " else "") ++
    ((if b6 then "Error: Project is missing. " else "") ++
    (if b7 then "Error: IT Portal / SR / CR is missing. " else ""))), ?_⟩
  simp [markerCat, String.append_assoc]

theorem markerCat_contains_status (b1 b2 b3 b5 b6 b7 : Bool) :
    strContains (markerCat b1 b2 b3 true b5 b6 b7) "Error: Status is missing. " := by
  refine ⟨(if b1 then "Error: JIRA Key is missing. " else "") ++
    ((if b2 then "Error: Summary is missing. " else "") ++
    (if b3 then "Error: Issue Type is missing. " else "")),
    (if b5 then "Error: Fix Version is missing. " else "") ++
    ((if b6 then "Error: Project is missing. " else "") ++
    (if b7 then "Error: IT Portal / SR / CR is missing. " else "")), ?_⟩
  simp [markerCat, String.append_assoc]

theorem markerCat_contains_fix_version (b1 b2 b3 b4 b6 b7 : Bool) :
    strContains (markerCat b1 b2 b3 b4 true b6 b7) "Error: Fix Version is missing. " := by
  refine ⟨(if b1 then "Error: JIRA Key is missing. " else "") ++
    ((if b2 then "Error: Summary is missing. " else "") ++
    ((if b3 then "Error: Issue Type is missing. " else "") ++
    (if b4 then "Error: Status is missing. " else ""))),
    (if b6 then "Error: Project is missing. " else "") ++
    (if b7 then "Error: IT Portal / SR / CR is missing. " else ""), ?_⟩
  simp [markerCat, String.append_assoc]

theorem markerCat_contains_it_portal (b1 b2 b3 b4 b5 b6 : Bool) :
    strContains (markerCat b1 b2 b3 b4 b5 b6 true) "Error: IT Portal / SR / CR is missing. " := by
  refine ⟨(if b1 then "Error: JIRA Key is missing. " else "") ++
    ((if b2 then "Error: Summary is missing. " else "") ++
    ((if b3 then "Error: Issue Type is missing. " else "") ++
    ((if b4 then "Error: Status is missing. " else "") ++
    ((if b5 then "Error: Fix Version is missing. " else "") ++
    (if b6 then "Error: Project is missing. " else ""))))), "", ?_⟩
  simp [markerCat, String.append_assoc]

/-- C1 (counterexample): the claim fails for the Project field.  A raw
issue whose `fields` object lacks `project` raises `KeyError: 'project'`
(line 48 has no fallback), so the normalizer returns the degraded row; the
returned row's `Project` is absent — not the sentinel "Not updated" — and
its Comments carry the exception text, not the claimed error sentence. -/
theorem C1_counterexample :
    (fetch_issue_data noProjectIssue).project ≠ some (JVal.str "Not updated") ∧
    fetch_issue_data noProjectIssue = degradedRow "'project'" := by
  constructor
  · decide
  · rfl

/-- C1 (amended): for every raw issue whose extraction succeeds, the error
markers appear in Comments in the fixed order JIRA Key, Summary, Issue
Type, Status, Fix Version, Project, IT Portal / SR / CR, and for each of
the fields Summary, Type, Status, fix-version list, IT Portal custom field
that is absent from the raw `fields` object, the row holds the sentinel
"Not updated" in that field and Comments contains that field's exact error
sentence.  (Project is excluded: a missing project key raises and yields
the degraded row, as `C1_counterexample` shows; the display names are the
source's, "Error: Issue Type is missing. " for Type.) -/
theorem C1_missing_field_fallback_and_marker (issue : JVal) (o : JObj) (row : Row)
    (hok : extractIssue issue = Except.ok row)
    (hf : issue.getItem "fields" = Except.ok (JVal.obj o)) :
    (∃ b1 b2 b3 b4 b5 b6 b7 : Bool, row.comments = markerCat b1 b2 b3 b4 b5 b6 b7) ∧
    (JObj.lookup o "summary" = none →
      row.summary = some (JVal.str "Not updated") ∧
      strContains row.comments "Error: Summary is missing. ") ∧
    (JObj.lookup o "issuetype" = none →
      row.type = some (JVal.str "Not updated") ∧
      strContains row.comments "Error: Issue Type is missing. ") ∧
    (JObj.lookup o "status" = none →
      row.status = some (JVal.str "Not updated") ∧
      strContains row.comments "Error: Status is missing. ") ∧
    (JObj.lookup o "fixVersions" = none →
      row.fixVersion = some (JVal.str "Not updated") ∧
      strContains row.comments "Error: Fix Version is missing. ") ∧
    (JObj.lookup o "customfield_10065" = none →
      row.itPortal = some (JVal.str "Not updated") ∧
      strContains row.comments "Error: IT Portal / SR / CR is missing. ") := by
  obtain ⟨cat, jk, sm, ty, st, fv, pj, itp, hc, hk, hs, ht, hst, hfv, hp, hit, hrow⟩ :=
    extractIssue_ok_elim hok
  subst hrow
  refine ⟨⟨_, _, _, _, _, _, _, mkComments_markerCat jk sm ty st fv pj itp⟩, ?_, ?_, ?_, ?_, ?_⟩
  · intro hnone
    have hs2 : extractSummary issue = Except.ok (JVal.str "Not updated") := by
      rw [extractSummary_of_fields hf, hnone]
      rfl
    obtain rfl : sm = JVal.str "Not updated" := ok_unique hs hs2
    refine ⟨rfl, ?_⟩
    show strContains (mkComments jk (JVal.str "Not updated") ty st fv pj itp) _
    rw [mkComments_markerCat]
    simp only [beq_self_eq_true]
    exact markerCat_contains_summary _ _ _ _ _ _
  · intro hnone
    have ht2 : extractType issue = Except.ok (JVal.str "Not updated") := by
      rw [extractType_of_fields hf, hnone]
      rfl
    obtain rfl : ty = JVal.str "Not updated" := ok_unique ht ht2
    refine ⟨rfl, ?_⟩
    show strContains (mkComments jk sm (JVal.str "Not updated") st fv pj itp) _
    rw [mkComments_markerCat]
    simp only [beq_self_eq_true]
    exact markerCat_contains_type _ _ _ _ _ _
  · intro hnone
    have hst2 : extractStatus issue = Except.ok (JVal.str "Not updated") := by
      rw [extractStatus_of_fields hf, hnone]
      rfl
    obtain rfl : st = JVal.str "Not updated" := ok_unique hst hst2
    refine ⟨rfl, ?_⟩
    show strContains (mkComments jk sm ty (JVal.str "Not updated") fv pj itp) _
    rw [mkComments_markerCat]
    simp only [beq_self_eq_true]
    exact markerCat_contains_status _ _ _ _ _ _
  · intro hnone
    have hfv2 : extractFixVersion issue = Except.ok (JVal.str "Not updated") :=
      extractFixVersion_of_fields_none hf hnone
    obtain rfl : fv = JVal.str "Not updated" := ok_unique hfv hfv2
    refine ⟨rfl, ?_⟩
    show strContains (mkComments jk sm ty st (JVal.str "Not updated") pj itp) _
    rw [mkComments_markerCat]
    simp only [beq_self_eq_true]
    exact markerCat_contains_fix_version _ _ _ _ _ _
  · intro hnone
    have hit2 : extractItPortal issue = Except.ok (JVal.str "Not updated") := by
      rw [extractItPortal_of_fields hf, hnone]
      rfl
    obtain rfl : itp = JVal.str "Not updated" := ok_unique hit hit2
    refine ⟨rfl, ?_⟩
    show strContains (mkComments jk sm ty st fv pj (JVal.str "Not updated")) _
    rw [mkComments_markerCat]
    simp only [beq_self_eq_true]
    exact markerCat_contains_it_portal _ _ _ _ _ _

/-- C1 (witness): on the concrete issue whose checked fields are all
absent, the amended theorem yields the Summary fallback and its marker. -/
theorem C1_witness :
    (fetch_issue_data bareIssue).summary = some (JVal.str "Not updated") ∧
    strContains (fetch_issue_data bareIssue).comments "Error: Summary is missing. " :=
  (C1_missing_field_fallback_and_marker bareIssue bareFields (fetch_issue_data bareIssue)
    rfl rfl).2.1 rfl

/-- C2 (counterexample): on an issue with a malformed (null) project
object, the normalizer does return the degraded two-field row, but its
Comments string is "Error in 'fetch_issue_data': <message>", not the
claimed "Error in normalization: <message>". -/
theorem C2_counterexample :
    fetch_issue_data nullProjectIssue = degradedRow "'NoneType' object is not subscriptable" ∧
    (fetch_issue_data nullProjectIssue).comments ≠
      "Error in normalization: 'NoneType' object is not subscriptable" := by
  constructor
  · rfl
  · decide

/-- C2 (amended): for every raw issue whose extraction raises, the
normalizer returns exactly the degraded row — `JIRA Key = "Unknown"`,
`Comments = "Error in 'fetch_issue_data': <message>"`, every other field
absent — and appending that row to any table raises the total issue count
by one and leaves every Type-based count unchanged. -/
theorem C2_normalization_error_row (issue : JVal) (e : PyErr)
    (h : extractIssue issue = Except.error e) :
    fetch_issue_data issue = degradedRow (PyErr.message e) ∧
    (∀ df : List Row, totalIssueCount (df ++ [fetch_issue_data issue]) = totalIssueCount df + 1) ∧
    (∀ (df : List Row) (t : String), countType (df ++ [fetch_issue_data issue]) t = countType df t) := by
  have hrow : fetch_issue_data issue = degradedRow (PyErr.message e) := by
    unfold fetch_issue_data
    rw [h]
  refine ⟨hrow, ?_, ?_⟩
  · intro df
    simp [totalIssueCount]
  · intro df t
    rw [hrow]
    simp [countType, List.filter_append, degradedRow]

/-- C2 (witness): the amended theorem applied to the null-project issue. -/
theorem C2_witness :
    fetch_issue_data nullProjectIssue =
      degradedRow (PyErr.message (PyErr.notSubscriptable "NoneType")) :=
  (C2_normalization_error_row nullProjectIssue (PyErr.notSubscriptable "NoneType") rfl).1

/-- C4 (counterexample): in the one-project one-version scenario with the
Type field missing and Status "Done", the single row's Comments is not the
claimed exact string "Error: Type is missing. " (the source writes
"Error: Issue Type is missing. "). -/
theorem C4_counterexample :
    opsDf.map Row.comments ≠ ["Error: Type is missing. "] := by
  decide

/-- C4 (amended): in the scenario — one selected project "OPS", one
selected version "1.0", the search returning exactly one issue whose Type
is missing and whose Status is "Done" — the row has Type "Not updated",
Status "Done" and Comments exactly "Error: Issue Type is missing. ", and
the KPIs are Total issue count 1, Total Stories 0, Total Defects 0, Total
Epics 0. -/
theorem C4_scenario_row_and_kpis :
    opsDf.map Row.type = [some (JVal.str "Not updated")] ∧
    opsDf.map Row.status = [some (JVal.str "Done")] ∧
    opsDf.map Row.comments = ["Error: Issue Type is missing. "] ∧
    totalIssueCount opsDf = 1 ∧
    kpiTypeCount opsDf "Story" = some 0 ∧
    kpiTypeCount opsDf "Defect" = some 0 ∧
    kpiTypeCount opsDf "Epic" = some 0 := by
  decide

/-- C5 (counterexample): a raw issue whose summary is present but happens
to hold the literal string "Not updated" takes no fallback, yet its
Comments is the Summary error sentence instead of the claimed empty
string — the source tests the extracted value, not whether the fallback
fired. -/
theorem C5_counterexample :
    JObj.lookup sentinelSummaryFields "summary" = some (JVal.str "Not updated") ∧
    (fetch_issue_data sentinelSummaryIssue).comments = "Error: Summary is missing. " ∧
    (fetch_issue_data sentinelSummaryIssue).comments ≠ "" := by
  refine ⟨rfl, rfl, ?_⟩
  decide

/-- C5 (amended): for every raw issue whose extraction succeeds and whose
extracted fields all differ from their fallback sentinels ("Unknown" for
the JIRA key, "Not updated" for the six others) — in particular every
issue with all fields present and no value colliding with a sentinel —
the row's Comments is the empty string. -/
theorem C5_comments_empty_when_no_sentinel (issue : JVal) (row : Row)
    (jk sm ty st fv pj itp : JVal)
    (hok : extractIssue issue = Except.ok row)
    (hk : extractKey issue = Except.ok jk) (hk2 : jk ≠ JVal.str "Unknown")
    (hs : extractSummary issue = Except.ok sm) (hs2 : sm ≠ JVal.str "Not updated")
    (ht : extractType issue = Except.ok ty) (ht2 : ty ≠ JVal.str "Not updated")
    (hst : extractStatus issue = Except.ok st) (hst2 : st ≠ JVal.str "Not updated")
    (hfv : extractFixVersion issue = Except.ok fv) (hfv2 : fv ≠ JVal.str "Not updated")
    (hp : extractProject issue = Except.ok pj) (hp2 : pj ≠ JVal.str "Not updated")
    (hit : extractItPortal issue = Except.ok itp) (hit2 : itp ≠ JVal.str "Not updated") :
    row.comments = "" := by
  obtain ⟨cat, jk', sm', ty', st', fv', pj', itp', hc', hk', hs', ht', hst', hfv', hp', hit', hrow⟩ :=
    extractIssue_ok_elim hok
  obtain rfl : jk' = jk := ok_unique hk' hk
  obtain rfl : sm' = sm := ok_unique hs' hs
  obtain rfl : ty' = ty := ok_unique ht' ht
  obtain rfl : st' = st := ok_unique hst' hst
  obtain rfl : fv' = fv := ok_unique hfv' hfv
  obtain rfl : pj' = pj := ok_unique hp' hp
  obtain rfl : itp' = itp := ok_unique hit' hit
  subst hrow
  exact mkComments_empty hk2 hs2 ht2 hst2 hfv2 hp2 hit2

/-- C5 (witness): on the fully populated sample issue, Comments is empty. -/
theorem C5_witness : (fetch_issue_data sampleIssue).comments = "" :=
  C5_comments_empty_when_no_sentinel sampleIssue (fetch_issue_data sampleIssue)
    (JVal.str "OPS-1") (JVal.str "Fix login") (JVal.str "Story") (JVal.str "Done")
    (JVal.str "1.0") (JVal.str "OPS") (JVal.str "SR-123")
    rfl rfl (by decide) rfl (by decide) rfl (by decide) rfl (by decide) rfl (by decide)
    rfl (by decide) rfl (by decide)

/-- C6 (confirmed): for every raw issue whose extraction succeeds, when
the fix-versions list is non-empty the row's Fix Version is the first
entry's name, and when the list is absent or empty it is the sentinel
"Not updated". -/
theorem C6_fix_version_first_entry (issue : JVal) (o : JObj) (row : Row)
    (hok : extractIssue issue = Except.ok row)
    (hf : issue.getItem "fields" = Except.ok (JVal.obj o)) :
    (∀ (e : JVal) (rest : JArr) (nv : JVal),
      JObj.lookup o "fixVersions" = some (JVal.arr (JArr.cons e rest)) →
      e.getItem "name" = Except.ok nv →
      row.fixVersion = some nv) ∧
    (JObj.lookup o "fixVersions" = none → row.fixVersion = some (JVal.str "Not updated")) ∧
    (JObj.lookup o "fixVersions" = some (JVal.arr JArr.nil) →
      row.fixVersion = some (JVal.str "Not updated")) := by
  obtain ⟨cat, jk, sm, ty, st, fv, pj, itp, hc, hk, hs, ht, hst, hfv, hp, hit, hrow⟩ :=
    extractIssue_ok_elim hok
  subst hrow
  refine ⟨?_, ?_, ?_⟩
  · intro e rest nv hl hname
    have h2 : e.getItem "name" = Except.ok fv := by
      rw [← extractFixVersion_of_fields_cons hf hl]
      exact hfv
    obtain rfl : fv = nv := ok_unique h2 hname
    rfl
  · intro hl
    obtain rfl : fv = JVal.str "Not updated" :=
      ok_unique hfv (extractFixVersion_of_fields_none hf hl)
    rfl
  · intro hl
    obtain rfl : fv = JVal.str "Not updated" :=
      ok_unique hfv (extractFixVersion_of_fields_empty hf hl)
    rfl

/-- C6 (witness): the sample issue's fix-versions list has the two entries
"1.0" and "2.0", and the normalized Fix Version is the first name "1.0". -/
theorem C6_witness : (fetch_issue_data sampleIssue).fixVersion = some (JVal.str "1.0") :=
  (C6_fix_version_first_entry sampleIssue sampleFields (fetch_issue_data sampleIssue)
    rfl rfl).1
    (jDict [("name", JVal.str "1.0")])
    (JArr.ofList [jDict [("name", JVal.str "2.0")]])
    (JVal.str "1.0") rfl rfl

/-- C7 (confirmed): the table builder is order-preserving — the output is
the concatenation, over project keys in outer order and version names in
inner order, of each search's normalized rows in response order; in
particular two projects with one version yield the first project's rows
immediately followed by the second's. -/
theorem C7_table_builder_order (get_issues : String → List JVal)
    (selected_fix_versions selected_project_keys : List String) :
    process_issues get_issues selected_fix_versions selected_project_keys =
      selected_project_keys.flatMap (fun p =>
        selected_fix_versions.flatMap (fun v =>
          (get_issues (jql_query p v)).map fetch_issue_data)) ∧
    ∀ (a b v1 : String),
      process_issues get_issues [v1] [a, b] =
        (get_issues (jql_query a v1)).map fetch_issue_data ++
        (get_issues (jql_query b v1)).map fetch_issue_data := by
  have hgen : ∀ (vers keys : List String),
      process_issues get_issues vers keys =
        keys.flatMap (fun p => vers.flatMap (fun v =>
          (get_issues (jql_query p v)).map fetch_issue_data)) := by
    intro vers keys
    unfold process_issues
    simp only [foldl_append_flatMap, List.nil_append]
  refine ⟨hgen _ _, ?_⟩
  intro a b v1
  rw [hgen]
  simp [List.flatMap_cons, List.flatMap_nil, List.append_nil]

/-- C8 (counterexample): an issue whose CAT Scope custom field is absent
and whose checked fields are all present — the status name being the
literal string "Not updated" — gets CAT Scope "Not updated" but a
non-empty Comments, refuting the claim's empty-Comments conclusion. -/
theorem C8_counterexample :
    JObj.lookup sentinelStatusFields "customfield_10079" = none ∧
    JObj.lookup sentinelStatusFields "status" = some (jDict [("name", JVal.str "Not updated")]) ∧
    (fetch_issue_data sentinelStatusIssue).catScope = some (JVal.str "Not updated") ∧
    (fetch_issue_data sentinelStatusIssue).comments ≠ "" := by
  refine ⟨rfl, rfl, rfl, ?_⟩
  decide

/-- C8 (amended): the CAT Scope field never contributes to Comments — for
every raw issue whose CAT Scope custom field is absent (so the field falls
back to "Not updated") while every checked field's extracted value differs
from its sentinel, the row has CAT Scope "Not updated" and an empty
Comments. -/
theorem C8_cat_scope_not_checked (issue : JVal) (o : JObj) (row : Row)
    (jk sm ty st fv pj itp : JVal)
    (hok : extractIssue issue = Except.ok row)
    (hf : issue.getItem "fields" = Except.ok (JVal.obj o))
    (hcat : JObj.lookup o "customfield_10079" = none)
    (hk : extractKey issue = Except.ok jk) (hk2 : jk ≠ JVal.str "Unknown")
    (hs : extractSummary issue = Except.ok sm) (hs2 : sm ≠ JVal.str "Not updated")
    (ht : extractType issue = Except.ok ty) (ht2 : ty ≠ JVal.str "Not updated")
    (hst : extractStatus issue = Except.ok st) (hst2 : st ≠ JVal.str "Not updated")
    (hfv : extractFixVersion issue = Except.ok fv) (hfv2 : fv ≠ JVal.str "Not updated")
    (hp : extractProject issue = Except.ok pj) (hp2 : pj ≠ JVal.str "Not updated")
    (hit : extractItPortal issue = Except.ok itp) (hit2 : itp ≠ JVal.str "Not updated") :
    row.catScope = some (JVal.str "Not updated") ∧ row.comments = "" := by
  obtain ⟨cat, jk', sm', ty', st', fv', pj', itp', hc', hk', hs', ht', hst', hfv', hp', hit', hrow⟩ :=
    extractIssue_ok_elim hok
  have hc2 : extractCatScope issue = Except.ok (JVal.str "Not updated") := by
    rw [extractCatScope_of_fields hf, hcat]
    rfl
  obtain rfl : cat = JVal.str "Not updated" := ok_unique hc' hc2
  obtain rfl : jk' = jk := ok_unique hk' hk
  obtain rfl : sm' = sm := ok_unique hs' hs
  obtain rfl : ty' = ty := ok_unique ht' ht
  obtain rfl : st' = st := ok_unique hst' hst
  obtain rfl : fv' = fv := ok_unique hfv' hfv
  obtain rfl : pj' = pj := ok_unique hp' hp
  obtain rfl : itp' = itp := ok_unique hit' hit
  subst hrow
  exact ⟨rfl, mkComments_empty hk2 hs2 ht2 hst2 hfv2 hp2 hit2⟩

/-- C8 (witness): the issue with an absent CAT Scope field and genuine
values everywhere else gets CAT Scope "Not updated" and empty Comments. -/
theorem C8_witness :
    (fetch_issue_data noCatIssue).catScope = some (JVal.str "Not updated") ∧
    (fetch_issue_data noCatIssue).comments = "" :=
  C8_cat_scope_not_checked noCatIssue noCatFields (fetch_issue_data noCatIssue)
    (JVal.str "OPS-4") (JVal.str "Fix login") (JVal.str "Story") (JVal.str "Done")
    (JVal.str "1.0") (JVal.str "OPS") (JVal.str "SR-123")
    rfl rfl rfl
    rfl (by decide) rfl (by decide) rfl (by decide) rfl (by decide) rfl (by decide)
    rfl (by decide) rfl (by decide)

/-- C9 (counterexample): a CAT Scope custom field present as an empty
object — present, and not an object carrying a nested value — still takes
the fallback and yields a normal row, not the degraded two-field row the
claim requires. -/
theorem C9_counterexample :
    JObj.lookup emptyCatFields "customfield_10079" = some (jDict []) ∧
    (fetch_issue_data emptyCatIssue).catScope = some (JVal.str "Not updated") ∧
    (fetch_issue_data emptyCatIssue).summary ≠ none := by
  refine ⟨rfl, rfl, ?_⟩
  decide

/-- C9 (amended): the CAT Scope fallback fires when the custom field key
is absent or when its value is an object without a nested `value` key;
only a present non-object value (such as null) makes line 42's second
`.get` raise, in which case extraction aborts and the degraded row is
returned. -/
theorem C9_cat_scope_fallback_shape (issue : JVal) (o : JObj)
    (hf : issue.getItem "fields" = Except.ok (JVal.obj o)) :
    (JObj.lookup o "customfield_10079" = none →
      extractCatScope issue = Except.ok (JVal.str "Not updated")) ∧
    (∀ o2 : JObj, JObj.lookup o "customfield_10079" = some (JVal.obj o2) →
      JObj.lookup o2 "value" = none →
      extractCatScope issue = Except.ok (JVal.str "Not updated")) ∧
    (JObj.lookup o "customfield_10079" = some JVal.null →
      extractIssue issue = Except.error (PyErr.attrErrorGet "NoneType") ∧
      fetch_issue_data issue = degradedRow "'NoneType' object has no attribute 'get'") := by
  refine ⟨?_, ?_, ?_⟩
  · intro h
    rw [extractCatScope_of_fields hf, h]
    rfl
  · intro o2 h hv
    rw [extractCatScope_of_fields hf, h]
    simp [JVal.get, hv]
  · intro h
    have hcs : extractCatScope issue = Except.error (PyErr.attrErrorGet "NoneType") := by
      rw [extractCatScope_of_fields hf, h]
      rfl
    have hiss : extractIssue issue = Except.error (PyErr.attrErrorGet "NoneType") := by
      unfold extractIssue
      rw [hcs]
      rfl
    refine ⟨hiss, ?_⟩
    unfold fetch_issue_data
    rw [hiss]
    rfl

/-- C9 (witness): on the issue whose CAT Scope custom field is null,
extraction raises the attribute error and the degraded row is returned. -/
theorem C9_witness :
    extractIssue nullCatIssue = Except.error (PyErr.attrErrorGet "NoneType") ∧
    fetch_issue_data nullCatIssue = degradedRow "'NoneType' object has no attribute 'get'" :=
  (C9_cat_scope_fallback_shape nullCatIssue nullCatFields rfl).2.2 rfl

/-- C10 (confirmed): the table builder called with an empty project-key
list or an empty version-name list issues no search query and returns the
empty table. -/
theorem C10_empty_selection (get_issues : String → List JVal)
    (selected_fix_versions selected_project_keys : List String) :
    process_issues get_issues selected_fix_versions [] = [] ∧
    process_issues_calls selected_fix_versions [] = [] ∧
    process_issues get_issues [] selected_project_keys = [] ∧
    process_issues_calls [] selected_project_keys = [] := by
  refine ⟨rfl, rfl, ?_, ?_⟩
  · unfold process_issues
    simp only [List.foldl_nil]
    exact foldl_const _ _
  · unfold process_issues_calls
    simp only [List.foldl_nil]
    exact foldl_const _ _
